import Mathlib

/-
Verification of the mDNS ("Bonjour") service responder, BonjourServer.cpp.
The responder logic (question parsing, answer planning, answer building,
lifecycle) is embedded from the source; the DNS wire primitives
(DnsRecordHeader layout, big-endian integers, hostname label streams) live
in Dns.hpp/Dns.cpp, which are not part of the sources here, and are
modelled from the specification's wire-format section.
-/

namespace Bonjour

/-- Datagrams, labels and decoded names are byte lists; a decoded domain
name is its ordered list of labels. -/
abbrev Bytes := List Nat

abbrev Label := List Nat

abbrev Name := List Label

/-- Modelled from the spec: DNS record type codes, from the supported-types
table (Dns.hpp is not among the sources). -/
def dnsTypeA : Nat := 1

def dnsTypePtr : Nat := 12

def dnsTypeTxt : Nat := 16

def dnsTypeAAAA : Nat := 28

def dnsTypeSrv : Nat := 33

/-- Modelled from the spec: the Internet class code. -/
def dnsClassIn : Nat := 1

/-- Modelled from the spec: response-present bit of the flags word. -/
def flagsResponse : Nat := 0x8000

/-- Modelled from the spec: a query has the response bit clear. -/
def flagsQuery : Nat := 0

/-- Modelled from the spec: the opcode field mask of the flags word. -/
def flagsOpcodeMask : Nat := 0x7800

/-- Modelled from the spec: the QUERY opcode. -/
def flagsOpcodeQuery : Nat := 0

/-- The 12-byte DNS record header: id, flags, and the four counts. -/
structure DnsRecordHeader where
  id : Nat
  flags : Nat
  questionsCount : Nat
  answersCount : Nat
  nameServersCount : Nat
  additionalRecordsCount : Nat
deriving Repr, DecidableEq

/-- Modelled from the spec: big-endian serialization of a 16-bit integer. -/
def encU16 (v : Nat) : Bytes := [v / 256 % 256, v % 256]

/-- Modelled from the spec: big-endian serialization of a 32-bit integer. -/
def encU32 (v : Nat) : Bytes :=
  [v / 16777216 % 256, v / 65536 % 256, v / 256 % 256, v % 256]

/-- Modelled from the spec: reading a big-endian 16-bit integer at a byte
position; fails when the datagram is too short. -/
def parseU16 (d : Bytes) (pos : Nat) : Option Nat :=
  match d.get? pos, d.get? (pos + 1) with
  | some hi, some lo => some (hi * 256 + lo)
  | _, _ => none

/-- Modelled from the spec: 12-byte header serialization, all fields
big-endian 16-bit in the order id, flags, qd, an, ns, ar. -/
def encHeader (h : DnsRecordHeader) : Bytes :=
  encU16 h.id ++ encU16 h.flags ++ encU16 h.questionsCount ++
    encU16 h.answersCount ++ encU16 h.nameServersCount ++
    encU16 h.additionalRecordsCount

/-- Modelled from the spec: header parse from the start of the datagram
(`stream >> header` in CreateAnswer); fails on a truncated datagram. -/
def parseHeader (d : Bytes) : Option DnsRecordHeader :=
  match parseU16 d 0, parseU16 d 2, parseU16 d 4, parseU16 d 6,
      parseU16 d 8, parseU16 d 10 with
  | some i, some f, some qd, some an, some ns, some ar =>
    some ⟨i, f, qd, an, ns, ar⟩
  | _, _, _, _, _, _ => none

theorem encU16_length (v : Nat) : (encU16 v).length = 2 := rfl

theorem encHeader_length (h : DnsRecordHeader) : (encHeader h).length = 12 := by
  simp [encHeader, encU16]

theorem parseU16_append (pre rest : Bytes) (v : Nat) (hv : v < 65536) :
    parseU16 (pre ++ (encU16 v ++ rest)) pre.length = some v := by
  have h1 : (pre ++ (encU16 v ++ rest)).get? pre.length = some (v / 256 % 256) := by
    rw [List.get?_append_right (Nat.le_refl _)]
    simp [encU16]
  have h2 : (pre ++ (encU16 v ++ rest)).get? (pre.length + 1) = some (v % 256) := by
    rw [List.get?_append_right (Nat.le_add_right _ _)]
    simp [encU16]
  rw [parseU16, h1, h2]
  exact congrArg some (by omega)

/-- Modelled from the spec: decoding of a domain name starting at `pos`
(DnsHostnamePartsStream in Dns.cpp is not among the sources). A name is a
sequence of length-prefixed labels ended by a zero length, or a 2-byte
back-pointer (top two bits of the length byte set) to an earlier
occurrence; at most one pointer may be followed, a pointer reached after a
pointer is an error; label lengths above 63 are rejected. Returns the
decoded labels and the position just past the name's bytes. `fuel` bounds
the recursion; `parseName` supplies enough of it for any datagram. -/
def parseLabels (d : Bytes) : Nat → Nat → Bool → Option (Name × Nat)
  | _, 0, _ => none
  | pos, fuel + 1, allowPtr =>
    match d.get? pos with
    | none => none
    | some b =>
      if b = 0 then some ([], pos + 1)
      else if 192 ≤ b then
        if allowPtr then
          match d.get? (pos + 1) with
          | none => none
          | some off =>
            match parseLabels d ((b - 192) * 256 + off) fuel false with
            | some (labels, _) => some (labels, pos + 2)
            | none => none
        else none
      else if 64 ≤ b then none
      else if d.length < pos + 1 + b then none
      else
        match parseLabels d (pos + 1 + b) fuel allowPtr with
        | some (labels, endPos) =>
          some (((d.drop (pos + 1)).take b) :: labels, endPos)
        | none => none

/-- Modelled from the spec: decode one domain name at `pos`. -/
def parseName (d : Bytes) (pos : Nat) : Option (Name × Nat) :=
  parseLabels d pos (d.length + 1) true

/-- The 4-byte question footer: type and class (DnsQuestionFooter). -/
structure Footer where
  type : Nat
  class_ : Nat
deriving Repr, DecidableEq

/-- Modelled from the spec: a question is a domain name followed by the
4-byte footer; mirrors ReadHostname followed by `stream >> footer`, where
any structural failure surfaces as `stream.Failed()`. -/
def parseQuestion (d : Bytes) (pos : Nat) : Option (Name × Footer × Nat) :=
  match parseName d pos with
  | none => none
  | some (labels, p1) =>
    match parseU16 d p1, parseU16 d (p1 + 2) with
    | some t, some c => some (labels, ⟨t, c⟩, p1 + 4)
    | _, _ => none

/-- Label-sequence serialization of a domain name: each label preceded by
its one-byte length, ended by a zero byte (the streamed form of
DnsHostnameInParts). -/
def encName (n : Name) : Bytes :=
  match n with
  | [] => [0]
  | l :: rest => (l.length :: l) ++ encName rest

/-- StreamedSize of DnsHostnameInParts: one length byte plus the content
per label, plus the terminating zero byte. -/
def streamedSize (n : Name) : Nat :=
  match n with
  | [] => 1
  | l :: rest => 1 + l.length + streamedSize rest

theorem streamedSize_eq_encName_length (n : Name) :
    streamedSize n = (encName n).length := by
  induction n with
  | nil => rfl
  | cons l rest ih => simp [encName, streamedSize, ih]; omega

theorem parseLabels_encName (labels : Name) (pre post : Bytes) (fuel : Nat)
    (allowPtr : Bool)
    (hlab : ∀ l ∈ labels, 0 < l.length ∧ l.length ≤ 63)
    (hfuel : labels.length < fuel) :
    parseLabels (pre ++ (encName labels ++ post)) pre.length fuel allowPtr
      = some (labels, pre.length + (encName labels).length) := by
  induction labels generalizing pre fuel with
  | nil =>
    match fuel, hfuel with
    | fuel + 1, _ =>
      have hb : (pre ++ (encName [] ++ post)).get? pre.length = some 0 := by
        rw [List.get?_append_right (Nat.le_refl _)]
        simp [encName]
      rw [parseLabels, hb]
      simp [encName]
  | cons l rest ih =>
    match fuel, hfuel with
    | fuel + 1, hfuel =>
      have hl := hlab l (List.mem_cons_self l rest)
      have hb : (pre ++ (encName (l :: rest) ++ post)).get? pre.length
          = some l.length := by
        rw [List.get?_append_right (Nat.le_refl _)]
        simp [encName]
      have hrearr : pre ++ (encName (l :: rest) ++ post)
          = (pre ++ l.length :: l) ++ (encName rest ++ post) := by
        simp [encName]
      have hlen : (pre ++ l.length :: l).length = pre.length + 1 + l.length := by
        simp; omega
      have hdrop : (pre ++ (encName (l :: rest) ++ post)).drop (pre.length + 1)
          = l ++ (encName rest ++ post) := by
        rw [hrearr]
        have : pre.length + 1 = (pre ++ [l.length]).length := by simp
        rw [show pre ++ l.length :: l = (pre ++ [l.length]) ++ l by simp, this,
          List.append_assoc, List.drop_left]
      have htake : ((pre ++ (encName (l :: rest) ++ post)).drop (pre.length + 1)).take l.length
          = l := by
        rw [hdrop, List.take_left]
      have hnotshort : ¬ (pre ++ (encName (l :: rest) ++ post)).length
          < pre.length + 1 + l.length := by
        rw [hrearr, List.length_append, hlen]
        omega
      have hrec := ih (pre ++ l.length :: l) fuel
        (fun x hx => hlab x (List.mem_cons_of_mem l hx)) (by simpa using hfuel)
      rw [hlen] at hrec
      have h0 : ¬ l.length = 0 := by omega
      have h192 : ¬ 192 ≤ l.length := by omega
      have h64 : ¬ 64 ≤ l.length := by omega
      rw [parseLabels]
      simp only [hb]
      rw [if_neg h0, if_neg h192, if_neg h64, if_neg hnotshort]
      rw [htake, hrearr, hrec]
      have hle : (encName (l :: rest)).length = 1 + l.length + (encName rest).length := by
        simp [encName]; omega
      refine congrArg some ?_
      rw [Prod.mk.injEq]
      exact ⟨rfl, by rw [hle]; omega⟩

theorem length_lt_encName_length (n : Name) : n.length < (encName n).length := by
  induction n with
  | nil => simp [encName]
  | cons l rest ih =>
    have : (encName (l :: rest)).length = 1 + l.length + (encName rest).length := by
      simp [encName]; omega
    simp only [List.length_cons, this]
    omega

theorem parseName_encName (labels : Name) (pre post : Bytes)
    (hlab : ∀ l ∈ labels, 0 < l.length ∧ l.length ≤ 63) :
    parseName (pre ++ (encName labels ++ post)) pre.length
      = some (labels, pre.length + (encName labels).length) := by
  apply parseLabels_encName labels pre post _ true hlab
  have h1 : labels.length < (encName labels).length := length_lt_encName_length labels
  have h2 : (encName labels).length ≤ (pre ++ (encName labels ++ post)).length := by
    simp; omega
  omega

def mdnsPort : Nat := 5353

/-- The label "local" as bytes. -/
def localLabel : Label := [108, 111, 99, 97, 108]

/-- The responder's immutable service identity: instance name (the field is
named `instance` in the source, a reserved word here), service name, type,
optional addresses, port and TXT text parts. -/
structure BonjourServer where
  instanceName : Label
  serviceName : Label
  type : Label
  ipv4Address : Option Bytes
  ipv6Address : Option Bytes
  port : Nat
  text : List Label
deriving Repr, DecidableEq

/-- DnsHostnameInParts(instance)("local"). -/
def shortInstanceName (s : BonjourServer) : Name := [s.instanceName, localLabel]

/-- DnsHostnameInParts(instance)(serviceName)(type)("local"). -/
def fullInstanceName (s : BonjourServer) : Name :=
  [s.instanceName, s.serviceName, s.type, localLabel]

/-- DnsHostnameInParts(serviceName)(type)("local"). -/
def serviceTypeName (s : BonjourServer) : Name :=
  [s.serviceName, s.type, localLabel]

/-- HostNameIs: walk the decoded name and the candidate components while
both are nonempty and the fronts agree; succeed only when both are
exhausted. -/
def hostNameIs (parts components : List Label) : Bool :=
  match parts, components with
  | p :: pt, c :: ct => if p = c then hostNameIs pt ct else false
  | [], [] => true
  | _, _ => false

/-- MyFullInstanceName. -/
def myFullInstanceName (s : BonjourServer) (hostname : Name) : Bool :=
  hostNameIs hostname [s.instanceName, s.serviceName, s.type, localLabel]

/-- MyShortInstanceName. -/
def myShortInstanceName (s : BonjourServer) (hostname : Name) : Bool :=
  hostNameIs hostname [s.instanceName, localLabel]

/-- MyServiceName. -/
def myServiceName (s : BonjourServer) (hostname : Name) : Bool :=
  hostNameIs hostname [s.serviceName, s.type, localLabel]

/-- IsFooterValid: the type must be one of the five supported types and
the class must be the Internet class. -/
def isFooterValid (f : Footer) : Bool :=
  if f.type ≠ dnsTypeA ∧ f.type ≠ dnsTypeAAAA ∧ f.type ≠ dnsTypePtr ∧
      f.type ≠ dnsTypeSrv ∧ f.type ≠ dnsTypeTxt then false
  else if f.class_ ≠ dnsClassIn then false
  else true

/-- IsQueryForMe: A/AAAA require the short instance name, SRV/TXT the full
instance name, PTR the service name. -/
def isQueryForMe (s : BonjourServer) (hostname : Name) (f : Footer) : Bool :=
  if f.type = dnsTypeA ∧ myShortInstanceName s hostname then true
  else if f.type = dnsTypeAAAA ∧ myShortInstanceName s hostname then true
  else if f.type = dnsTypeSrv ∧ myFullInstanceName s hostname then true
  else if f.type = dnsTypeTxt ∧ myFullInstanceName s hostname then true
  else if f.type = dnsTypePtr ∧ myServiceName s hostname then true
  else false

/-- IsValidQuestion: the header must have parsed (`stream.Failed()` is the
first check), the opcode must be QUERY, the response bit clear, and the
answer, name-server and additional-record counts all zero. -/
def isValidQuestion (h : Option DnsRecordHeader) : Bool :=
  match h with
  | none => false
  | some h =>
    if h.flags &&& flagsOpcodeMask ≠ flagsOpcodeQuery then false
    else if h.flags &&& flagsResponse ≠ flagsQuery then false
    else if h.answersCount ≠ 0 then false
    else if h.nameServersCount ≠ 0 then false
    else if h.additionalRecordsCount ≠ 0 then false
    else true

/-- One emitted resource record, as written by the Add member functions. -/
inductive DnsRec where
  | a (name : Name) (address : Bytes)
  | aaaa (name : Name) (address : Bytes)
  | ptr (name : Name) (target : Name)
  | srv (name : Name) (priority weight port : Nat) (target : Name)
  | txt (name : Name) (strings : List Label)
deriving Repr, DecidableEq

/-- The record's owner name, the first field serialized for it. -/
def DnsRec.recordName : DnsRec → Name
  | .a n _ => n
  | .aaaa n _ => n
  | .ptr n _ => n
  | .srv n _ _ _ _ => n
  | .txt n _ => n

/-- DnsRecordPayload: type, class, 32-bit TTL and rdlength, big-endian. -/
def encPayload (t c ttl rdlength : Nat) : Bytes :=
  encU16 t ++ encU16 c ++ encU32 ttl ++ encU16 rdlength

/-- The streamed form of DnsPartsWithoutTermination: per-part length bytes
and contents, no terminating zero (the TXT record data). -/
def encTxtData (strings : List Label) : Bytes :=
  match strings with
  | [] => []
  | l :: rest => (l.length :: l) ++ encTxtData rest

/-- Byte serialization of one record, mirroring AddA/AddAaaa/AddPtr/AddSrv/
AddTxt: the owner name in full label form, the payload footer with a
60-second TTL, then the type-specific data. -/
def encRec (r : DnsRec) : Bytes :=
  match r with
  | .a n ad => encName n ++ encPayload dnsTypeA dnsClassIn 60 4 ++ ad
  | .aaaa n ad => encName n ++ encPayload dnsTypeAAAA dnsClassIn 60 16 ++ ad
  | .ptr n t => encName n ++ encPayload dnsTypePtr dnsClassIn 60 (streamedSize t) ++ encName t
  | .srv n p w port t =>
    encName n ++ encPayload dnsTypeSrv dnsClassIn 60 (streamedSize t + 6) ++
      encU16 p ++ encU16 w ++ encU16 port ++ encName t
  | .txt n strs =>
    encName n ++ encPayload dnsTypeTxt dnsClassIn 60 (streamedSize strs - 1) ++
      encTxtData strs

/-- The Answer accumulator: the query id remembered for the header patch,
the bytes written to the output stream so far, the three counters, and the
list of records written (the records are determined by the bytes; they are
carried so that record contents can be stated directly). -/
structure Answer where
  queryId : Nat
  bytes : Bytes
  answersCount : Nat
  nameServersCount : Nat
  additionalRecordsCount : Nat
  records : List DnsRec
deriving Repr, DecidableEq

/-- The Answer constructor: writes the provisional header (query id,
response flag, all four counts zero) as the first bytes of the output. -/
def mkAnswer (queryId : Nat) : Answer :=
  ⟨queryId, encHeader ⟨queryId, flagsResponse, 0, 0, 0, 0⟩, 0, 0, 0, []⟩

def addRecord (st : Answer) (r : DnsRec) : Answer :=
  { st with bytes := st.bytes ++ encRec r, records := st.records ++ [r] }

/-- AddA: writes the given owner name and the configured IPv4 address (the
source dereferences the optional; all call sites have checked it). -/
def addA (s : BonjourServer) (st : Answer) (n : Name) : Answer :=
  addRecord st (.a n (s.ipv4Address.getD [0, 0, 0, 0]))

def addAaaa (s : BonjourServer) (st : Answer) (n : Name) : Answer :=
  addRecord st (.aaaa n (s.ipv6Address.getD (List.replicate 16 0)))

/-- AddPtr: the record data is always the full instance name. -/
def addPtr (s : BonjourServer) (st : Answer) (n : Name) : Answer :=
  addRecord st (.ptr n (fullInstanceName s))

/-- AddSrv: priority 0, weight 0, the configured port, and the short
instance name as target. -/
def addSrv (s : BonjourServer) (st : Answer) (n : Name) : Answer :=
  addRecord st (.srv n 0 0 s.port (shortInstanceName s))

def addTxt (s : BonjourServer) (st : Answer) (n : Name) : Answer :=
  addRecord st (.txt n s.text)

def addAAnswer (s : BonjourServer) (st : Answer) : Answer :=
  if s.ipv4Address ≠ none then
    addA s { st with answersCount := st.answersCount + 1 } (shortInstanceName s)
  else st

def addAaaaAnswer (s : BonjourServer) (st : Answer) : Answer :=
  if s.ipv6Address ≠ none then
    addAaaa s { st with answersCount := st.answersCount + 1 } (shortInstanceName s)
  else st

def addPtrAnswer (s : BonjourServer) (st : Answer) : Answer :=
  addPtr s { st with answersCount := st.answersCount + 1 } (serviceTypeName s)

def addSrvAnswer (s : BonjourServer) (st : Answer) : Answer :=
  addSrv s { st with answersCount := st.answersCount + 1 } (fullInstanceName s)

def addTxtAnswer (s : BonjourServer) (st : Answer) : Answer :=
  addTxt s { st with answersCount := st.answersCount + 1 } (fullInstanceName s)

def addAAdditional (s : BonjourServer) (st : Answer) : Answer :=
  if s.ipv4Address ≠ none then
    addA s { st with additionalRecordsCount := st.additionalRecordsCount + 1 }
      (shortInstanceName s)
  else st

def addAaaaAdditional (s : BonjourServer) (st : Answer) : Answer :=
  if s.ipv6Address ≠ none then
    addAaaa s { st with additionalRecordsCount := st.additionalRecordsCount + 1 }
      (shortInstanceName s)
  else st

def addSrvAdditional (s : BonjourServer) (st : Answer) : Answer :=
  addSrv s { st with additionalRecordsCount := st.additionalRecordsCount + 1 }
    (fullInstanceName s)

def addTxtAdditional (s : BonjourServer) (st : Answer) : Answer :=
  addTxt s { st with additionalRecordsCount := st.additionalRecordsCount + 1 }
    (fullInstanceName s)

/-- Finish: overwrite the header region at the start marker with the true
counts; the name-server count is never incremented anywhere. -/
def finish (st : Answer) : Bytes :=
  encHeader ⟨st.queryId, flagsResponse, 0, st.answersCount,
    st.nameServersCount, st.additionalRecordsCount⟩ ++ st.bytes.drop 12

/-- ReadQuestion: decode the name and the footer; a structural failure or
an invalid footer clears `valid`; otherwise, when the query is for this
responder, dispatch on the (already validated) type. The final arm is the
source's std::abort default, unreachable because IsFooterValid admits only
the five types. -/
def readQuestion (s : BonjourServer) (d : Bytes) (st : Answer) (pos : Nat) :
    Bool × Answer × Nat :=
  match parseQuestion d pos with
  | none => (false, st, pos)
  | some (hostname, f, pos') =>
    if ¬ isFooterValid f then (false, st, pos')
    else if isQueryForMe s hostname f then
      if f.type = dnsTypeA then (true, addAAnswer s st, pos')
      else if f.type = dnsTypeAAAA then (true, addAaaaAnswer s st, pos')
      else if f.type = dnsTypePtr then (true, addPtrAnswer s st, pos')
      else if f.type = dnsTypeSrv then (true, addSrvAnswer s st, pos')
      else if f.type = dnsTypeTxt then (true, addTxtAnswer s st, pos')
      else (true, st, pos')
    else (true, st, pos')

/-- ReadQuestionForAdditionalRecords: the second sub-pass re-reads the same
question bytes (no validity check is performed here; the first sub-pass
has already parsed these bytes, so the none arm is unreachable); a PTR
match contributes TXT, SRV, A, AAAA additionals in that order, an SRV
match contributes A and AAAA. -/
def readQuestionForAdditionalRecords (s : BonjourServer) (d : Bytes)
    (st : Answer) (pos : Nat) : Answer × Nat :=
  match parseQuestion d pos with
  | none => (st, pos)
  | some (hostname, f, pos') =>
    if isQueryForMe s hostname f then
      if f.type = dnsTypePtr then
        (addAaaaAdditional s (addAAdditional s (addSrvAdditional s
          (addTxtAdditional s st))), pos')
      else if f.type = dnsTypeSrv then
        (addAaaaAdditional s (addAAdditional s st), pos')
      else (st, pos')
    else (st, pos')

/-- The first sub-pass loop: `for (i = 0; valid && i != questionsCount; ++i)
ReadQuestion()`. -/
def readQuestions (s : BonjourServer) (d : Bytes) :
    Nat → Bool → Answer → Nat → Bool × Answer × Nat
  | 0, valid, st, pos => (valid, st, pos)
  | n + 1, valid, st, pos =>
    if valid then
      match readQuestion s d st pos with
      | (v, st', pos') => readQuestions s d n v st' pos'
    else (valid, st, pos)

/-- The second sub-pass loop; `valid` is not modified inside it. -/
def readQuestionsForAdditionalRecords (s : BonjourServer) (d : Bytes) :
    Nat → Bool → Answer → Nat → Answer × Nat
  | 0, _, st, pos => (st, pos)
  | n + 1, valid, st, pos =>
    if valid then
      match readQuestionForAdditionalRecords s d st pos with
      | (st', pos') => readQuestionsForAdditionalRecords s d n valid st' pos'
    else (st, pos)

/-- CreateAnswer without the final discard: reads the header, stops with
nothing written when IsValidQuestion fails, otherwise emplaces the Answer
(writing the provisional header), runs the first sub-pass from the start
of the question section, rewinds, and runs the second sub-pass. Returns
the `valid` flag together with the accumulated Answer, whose bytes are
exactly what was written to the supplied writer. -/
def createAnswerCore (s : BonjourServer) (d : Bytes) : Option (Bool × Answer) :=
  match parseHeader d with
  | none => none
  | some h =>
    if isValidQuestion (some h) then
      let r1 := readQuestions s d h.questionsCount true (mkAnswer h.id) 12
      let r2 := readQuestionsForAdditionalRecords s d h.questionsCount r1.1 r1.2.1 12
      some (r1.1, r2.1)
    else none

/-- CreateAnswer's observable result: `answer` is discarded (`infra::none`)
when the header was invalid or `valid` was cleared. -/
def createAnswer (s : BonjourServer) (d : Bytes) : Option Answer :=
  match createAnswerCore s d with
  | none => none
  | some (valid, st) => if valid then some st else none

/-- HasAnswer: an answer exists and its answer count is nonzero. -/
def hasAnswer (s : BonjourServer) (d : Bytes) : Bool :=
  match createAnswer s d with
  | some a => decide (a.answersCount ≠ 0)
  | none => false

/-- countingWriter.Processed() after the dry-run constructor: the number of
bytes the sizing pass pushed through the counting writer (header plus
records, written even when the answer is later discarded). -/
def dryRunProcessed (s : BonjourServer) (d : Bytes) : Nat :=
  match createAnswerCore s d with
  | none => 0
  | some (_, st) => st.bytes.length

/-- The real pass (the constructor taking a writer): run CreateAnswer
against the granted writer and, when the answer was not discarded, patch
the header via Finish. -/
def realOutput (s : BonjourServer) (d : Bytes) : Option Bytes :=
  match createAnswerCore s d with
  | none => none
  | some (valid, st) => if valid then some (finish st) else none

/-- DataReceived: drop datagrams not from the mDNS port; drop when a reader
is already retained; otherwise run the dry pass — retain the reader and
request a send stream of the counted size when an answer exists, release
the reader when not. Returns the retained reader and the requested size. -/
def dataReceived (s : BonjourServer) (waitingReader : Option Bytes)
    (d : Bytes) (fromPort : Nat) : Option Bytes × Option Nat :=
  if fromPort ≠ mdnsPort then (waitingReader, none)
  else if waitingReader ≠ none then (waitingReader, none)
  else if hasAnswer s d then (some d, some (dryRunProcessed s d))
  else (none, none)

/-- SendStreamAvailable: run the real pass over the retained reader and
release it (the source asserts the reader is present). Returns the
released slot and the bytes handed to the granted writer. -/
def sendStreamAvailable (s : BonjourServer) (waitingReader : Option Bytes) :
    Option Bytes × Option Bytes :=
  match waitingReader with
  | some d => (none, realOutput s d)
  | none => (none, none)

/-- Structural well-formedness of the question section: every one of the
`n` declared questions starting at `pos` decodes and carries a supported
footer. -/
def questionsOk (d : Bytes) : Nat → Nat → Bool
  | 0, _ => true
  | n + 1, pos =>
    match parseQuestion d pos with
    | none => false
    | some (_, f, pos') => if isFooterValid f then questionsOk d n pos' else false

theorem readQuestions_false (s : BonjourServer) (d : Bytes) (n : Nat)
    (st : Answer) (pos : Nat) :
    readQuestions s d n false st pos = (false, st, pos) := by
  cases n <;> rfl

theorem hostNameIs_iff_eq (parts components : List Label) :
    hostNameIs parts components = true ↔ parts = components := by
  induction parts generalizing components with
  | nil => cases components <;> simp [hostNameIs]
  | cons p pt ih =>
    cases components with
    | nil => simp [hostNameIs]
    | cons c ct =>
      by_cases hpc : p = c
      · subst hpc
        simp [hostNameIs, ih]
      · simp [hostNameIs, hpc]

theorem hostNameIs_self (n : List Label) : hostNameIs n n = true :=
  (hostNameIs_iff_eq n n).mpr rfl

theorem readQuestion_none (s : BonjourServer) (d : Bytes) (st : Answer)
    (pos : Nat) (h : parseQuestion d pos = none) :
    readQuestion s d st pos = (false, st, pos) := by
  unfold readQuestion
  rw [h]

theorem readQuestion_some (s : BonjourServer) (d : Bytes) (st : Answer)
    (pos : Nat) (hn : Name) (f : Footer) (p' : Nat)
    (h : parseQuestion d pos = some (hn, f, p')) :
    readQuestion s d st pos =
      (if ¬ isFooterValid f then (false, st, p')
       else if isQueryForMe s hn f then
         if f.type = dnsTypeA then (true, addAAnswer s st, p')
         else if f.type = dnsTypeAAAA then (true, addAaaaAnswer s st, p')
         else if f.type = dnsTypePtr then (true, addPtrAnswer s st, p')
         else if f.type = dnsTypeSrv then (true, addSrvAnswer s st, p')
         else if f.type = dnsTypeTxt then (true, addTxtAnswer s st, p')
         else (true, st, p')
       else (true, st, p')) := by
  unfold readQuestion
  rw [h]

theorem readQuestionFAR_none (s : BonjourServer) (d : Bytes) (st : Answer)
    (pos : Nat) (h : parseQuestion d pos = none) :
    readQuestionForAdditionalRecords s d st pos = (st, pos) := by
  unfold readQuestionForAdditionalRecords
  rw [h]

theorem readQuestionFAR_some (s : BonjourServer) (d : Bytes) (st : Answer)
    (pos : Nat) (hn : Name) (f : Footer) (p' : Nat)
    (h : parseQuestion d pos = some (hn, f, p')) :
    readQuestionForAdditionalRecords s d st pos =
      (if isQueryForMe s hn f then
         if f.type = dnsTypePtr then
           (addAaaaAdditional s (addAAdditional s (addSrvAdditional s
             (addTxtAdditional s st))), p')
         else if f.type = dnsTypeSrv then
           (addAaaaAdditional s (addAAdditional s st), p')
         else (st, p')
       else (st, p')) := by
  unfold readQuestionForAdditionalRecords
  rw [h]

theorem addAAnswer_bytes (s : BonjourServer) (st : Answer) :
    ∃ t, (addAAnswer s st).bytes = st.bytes ++ t := by
  unfold addAAnswer addA addRecord
  split_ifs
  · exact ⟨_, rfl⟩
  · exact ⟨[], (List.append_nil _).symm⟩

theorem addAaaaAnswer_bytes (s : BonjourServer) (st : Answer) :
    ∃ t, (addAaaaAnswer s st).bytes = st.bytes ++ t := by
  unfold addAaaaAnswer addAaaa addRecord
  split_ifs
  · exact ⟨_, rfl⟩
  · exact ⟨[], (List.append_nil _).symm⟩

theorem addPtrAnswer_bytes (s : BonjourServer) (st : Answer) :
    ∃ t, (addPtrAnswer s st).bytes = st.bytes ++ t :=
  ⟨_, rfl⟩

theorem addSrvAnswer_bytes (s : BonjourServer) (st : Answer) :
    ∃ t, (addSrvAnswer s st).bytes = st.bytes ++ t :=
  ⟨_, rfl⟩

theorem addTxtAnswer_bytes (s : BonjourServer) (st : Answer) :
    ∃ t, (addTxtAnswer s st).bytes = st.bytes ++ t :=
  ⟨_, rfl⟩

theorem addAAdditional_bytes (s : BonjourServer) (st : Answer) :
    ∃ t, (addAAdditional s st).bytes = st.bytes ++ t := by
  unfold addAAdditional addA addRecord
  split_ifs
  · exact ⟨_, rfl⟩
  · exact ⟨[], (List.append_nil _).symm⟩

theorem addAaaaAdditional_bytes (s : BonjourServer) (st : Answer) :
    ∃ t, (addAaaaAdditional s st).bytes = st.bytes ++ t := by
  unfold addAaaaAdditional addAaaa addRecord
  split_ifs
  · exact ⟨_, rfl⟩
  · exact ⟨[], (List.append_nil _).symm⟩

theorem addSrvAdditional_bytes (s : BonjourServer) (st : Answer) :
    ∃ t, (addSrvAdditional s st).bytes = st.bytes ++ t :=
  ⟨_, rfl⟩

theorem addTxtAdditional_bytes (s : BonjourServer) (st : Answer) :
    ∃ t, (addTxtAdditional s st).bytes = st.bytes ++ t :=
  ⟨_, rfl⟩

theorem bytes_step_trans {x y z : Bytes} (h1 : ∃ t, y = x ++ t)
    (h2 : ∃ u, z = y ++ u) : ∃ v, z = x ++ v := by
  obtain ⟨t, ht⟩ := h1
  obtain ⟨u, hu⟩ := h2
  exact ⟨t ++ u, by rw [hu, ht, List.append_assoc]⟩

theorem readQuestion_bytes (s : BonjourServer) (d : Bytes) (st : Answer)
    (pos : Nat) : ∃ t, (readQuestion s d st pos).2.1.bytes = st.bytes ++ t := by
  cases hp : parseQuestion d pos with
  | none =>
    rw [readQuestion_none s d st pos hp]
    exact ⟨[], (List.append_nil _).symm⟩
  | some q =>
    obtain ⟨hn, f, p'⟩ := q
    rw [readQuestion_some s d st pos hn f p' hp]
    split_ifs <;> first
      | exact ⟨[], (List.append_nil _).symm⟩
      | exact addAAnswer_bytes s st
      | exact addAaaaAnswer_bytes s st
      | exact addPtrAnswer_bytes s st
      | exact addSrvAnswer_bytes s st
      | exact addTxtAnswer_bytes s st

theorem readQuestion_queryId (s : BonjourServer) (d : Bytes) (st : Answer)
    (pos : Nat) : (readQuestion s d st pos).2.1.queryId = st.queryId := by
  cases hp : parseQuestion d pos with
  | none => rw [readQuestion_none s d st pos hp]
  | some q =>
    obtain ⟨hn, f, p'⟩ := q
    rw [readQuestion_some s d st pos hn f p' hp]
    simp only [addAAnswer, addAaaaAnswer, addPtrAnswer, addSrvAnswer,
      addTxtAnswer, addA, addAaaa, addPtr, addSrv, addTxt, addRecord]
    split_ifs <;> rfl

theorem readQuestionFAR_bytes (s : BonjourServer) (d : Bytes) (st : Answer)
    (pos : Nat) :
    ∃ t, (readQuestionForAdditionalRecords s d st pos).1.bytes = st.bytes ++ t := by
  cases hp : parseQuestion d pos with
  | none =>
    rw [readQuestionFAR_none s d st pos hp]
    exact ⟨[], (List.append_nil _).symm⟩
  | some q =>
    obtain ⟨hn, f, p'⟩ := q
    rw [readQuestionFAR_some s d st pos hn f p' hp]
    split_ifs
    · exact bytes_step_trans (bytes_step_trans (bytes_step_trans
        (addTxtAdditional_bytes s st) (addSrvAdditional_bytes s _))
        (addAAdditional_bytes s _)) (addAaaaAdditional_bytes s _)
    · exact bytes_step_trans (addAAdditional_bytes s st)
        (addAaaaAdditional_bytes s _)
    · exact ⟨[], (List.append_nil _).symm⟩
    · exact ⟨[], (List.append_nil _).symm⟩

theorem readQuestionFAR_queryId (s : BonjourServer) (d : Bytes) (st : Answer)
    (pos : Nat) :
    (readQuestionForAdditionalRecords s d st pos).1.queryId = st.queryId := by
  cases hp : parseQuestion d pos with
  | none => rw [readQuestionFAR_none s d st pos hp]
  | some q =>
    obtain ⟨hn, f, p'⟩ := q
    rw [readQuestionFAR_some s d st pos hn f p' hp]
    simp only [addAAdditional, addAaaaAdditional, addSrvAdditional,
      addTxtAdditional, addA, addAaaa, addSrv, addTxt, addRecord]
    split_ifs <;> rfl

theorem readQuestionFAR_answersCount (s : BonjourServer) (d : Bytes)
    (st : Answer) (pos : Nat) :
    (readQuestionForAdditionalRecords s d st pos).1.answersCount = st.answersCount := by
  cases hp : parseQuestion d pos with
  | none => rw [readQuestionFAR_none s d st pos hp]
  | some q =>
    obtain ⟨hn, f, p'⟩ := q
    rw [readQuestionFAR_some s d st pos hn f p' hp]
    simp only [addAAdditional, addAaaaAdditional, addSrvAdditional,
      addTxtAdditional, addA, addAaaa, addSrv, addTxt, addRecord]
    split_ifs <;> rfl

theorem readQuestions_bytes (s : BonjourServer) (d : Bytes) (n : Nat) :
    ∀ v st pos, ∃ t, (readQuestions s d n v st pos).2.1.bytes = st.bytes ++ t := by
  induction n with
  | zero => exact fun v st pos => ⟨[], by simp [readQuestions]⟩
  | succ n ih =>
    intro v st pos
    cases v with
    | false => exact ⟨[], by simp [readQuestions]⟩
    | true =>
      rw [readQuestions]
      simp only [if_true]
      obtain ⟨t1, h1⟩ := readQuestion_bytes s d st pos
      obtain ⟨t2, h2⟩ := ih (readQuestion s d st pos).1
        (readQuestion s d st pos).2.1 (readQuestion s d st pos).2.2
      exact ⟨t1 ++ t2, by rw [h2, h1, List.append_assoc]⟩

theorem readQuestions_queryId (s : BonjourServer) (d : Bytes) (n : Nat) :
    ∀ v st pos, (readQuestions s d n v st pos).2.1.queryId = st.queryId := by
  induction n with
  | zero => exact fun v st pos => rfl
  | succ n ih =>
    intro v st pos
    cases v with
    | false => simp [readQuestions]
    | true =>
      rw [readQuestions]
      simp only [if_true]
      rw [ih (readQuestion s d st pos).1 (readQuestion s d st pos).2.1
        (readQuestion s d st pos).2.2]
      exact readQuestion_queryId s d st pos

theorem readQuestionsFAR_bytes (s : BonjourServer) (d : Bytes) (n : Nat) :
    ∀ v st pos,
      ∃ t, (readQuestionsForAdditionalRecords s d n v st pos).1.bytes = st.bytes ++ t := by
  induction n with
  | zero => exact fun v st pos => ⟨[], by simp [readQuestionsForAdditionalRecords]⟩
  | succ n ih =>
    intro v st pos
    cases v with
    | false => exact ⟨[], by simp [readQuestionsForAdditionalRecords]⟩
    | true =>
      rw [readQuestionsForAdditionalRecords]
      simp only [if_true]
      obtain ⟨t1, h1⟩ := readQuestionFAR_bytes s d st pos
      obtain ⟨t2, h2⟩ := ih true (readQuestionForAdditionalRecords s d st pos).1
        (readQuestionForAdditionalRecords s d st pos).2
      exact ⟨t1 ++ t2, by rw [h2, h1, List.append_assoc]⟩

theorem readQuestionsFAR_queryId (s : BonjourServer) (d : Bytes) (n : Nat) :
    ∀ v st pos,
      (readQuestionsForAdditionalRecords s d n v st pos).1.queryId = st.queryId := by
  induction n with
  | zero => exact fun v st pos => rfl
  | succ n ih =>
    intro v st pos
    cases v with
    | false => simp [readQuestionsForAdditionalRecords]
    | true =>
      rw [readQuestionsForAdditionalRecords]
      simp only [if_true]
      rw [ih true (readQuestionForAdditionalRecords s d st pos).1
        (readQuestionForAdditionalRecords s d st pos).2]
      exact readQuestionFAR_queryId s d st pos

theorem readQuestions_fst (s : BonjourServer) (d : Bytes) (n : Nat) :
    ∀ st pos, (readQuestions s d n true st pos).1 = questionsOk d n pos := by
  induction n with
  | zero => exact fun st pos => rfl
  | succ n ih =>
    intro st pos
    rw [readQuestions]
    simp only [if_true]
    cases hp : parseQuestion d pos with
    | none =>
      rw [readQuestion_none s d st pos hp]
      simp [readQuestions_false, questionsOk, hp]
    | some q =>
      obtain ⟨hn, f, p'⟩ := q
      by_cases hf : isFooterValid f
      · have h1 : ∃ st', readQuestion s d st pos = (true, st', p') := by
          rw [readQuestion_some s d st pos hn f p' hp]
          rw [if_neg (by simp [hf])]
          split_ifs <;> exact ⟨_, rfl⟩
        obtain ⟨st', h1⟩ := h1
        rw [h1]
        rw [ih st' p']
        simp [questionsOk, hp, hf]
      · rw [readQuestion_some s d st pos hn f p' hp,
          if_pos (by simp [hf])]
        simp [readQuestions_false, questionsOk, hp, hf]

theorem createAnswerCore_none (s : BonjourServer) (d : Bytes)
    (h : parseHeader d = none) : createAnswerCore s d = none := by
  unfold createAnswerCore
  rw [h]

theorem createAnswerCore_eq (s : BonjourServer) (d : Bytes)
    (hd : DnsRecordHeader) (h : parseHeader d = some hd) :
    createAnswerCore s d =
      (if isValidQuestion (some hd) then
         some ((readQuestions s d hd.questionsCount true (mkAnswer hd.id) 12).1,
           (readQuestionsForAdditionalRecords s d hd.questionsCount
             (readQuestions s d hd.questionsCount true (mkAnswer hd.id) 12).1
             (readQuestions s d hd.questionsCount true (mkAnswer hd.id) 12).2.1 12).1)
       else none) := by
  unfold createAnswerCore
  rw [h]

theorem createAnswer_of_core_none (s : BonjourServer) (d : Bytes)
    (h : createAnswerCore s d = none) : createAnswer s d = none := by
  unfold createAnswer
  rw [h]

theorem createAnswer_of_core_some (s : BonjourServer) (d : Bytes) (v : Bool)
    (st : Answer) (h : createAnswerCore s d = some (v, st)) :
    createAnswer s d = if v then some st else none := by
  unfold createAnswer
  rw [h]

theorem hasAnswer_of_none (s : BonjourServer) (d : Bytes)
    (h : createAnswer s d = none) : hasAnswer s d = false := by
  unfold hasAnswer
  rw [h]

theorem hasAnswer_of_some (s : BonjourServer) (d : Bytes) (a : Answer)
    (h : createAnswer s d = some a) :
    hasAnswer s d = decide (a.answersCount ≠ 0) := by
  unfold hasAnswer
  rw [h]

theorem dryRunProcessed_of_some (s : BonjourServer) (d : Bytes) (v : Bool)
    (st : Answer) (h : createAnswerCore s d = some (v, st)) :
    dryRunProcessed s d = st.bytes.length := by
  unfold dryRunProcessed
  rw [h]

theorem realOutput_of_some (s : BonjourServer) (d : Bytes) (v : Bool)
    (st : Answer) (h : createAnswerCore s d = some (v, st)) :
    realOutput s d = if v then some (finish st) else none := by
  unfold realOutput
  rw [h]

theorem createAnswerCore_inv (s : BonjourServer) (d : Bytes) (v : Bool)
    (st : Answer) (h : createAnswerCore s d = some (v, st)) :
    ∃ hd, parseHeader d = some hd ∧ st.queryId = hd.id ∧
      12 ≤ st.bytes.length ∧
      st.bytes.take 12 = encHeader ⟨hd.id, flagsResponse, 0, 0, 0, 0⟩ := by
  cases hp : parseHeader d with
  | none => rw [createAnswerCore_none s d hp] at h; exact absurd h (by simp)
  | some hd =>
    rw [createAnswerCore_eq s d hd hp] at h
    by_cases hv : isValidQuestion (some hd)
    · rw [if_pos hv] at h
      have e : st = (readQuestionsForAdditionalRecords s d hd.questionsCount
          (readQuestions s d hd.questionsCount true (mkAnswer hd.id) 12).1
          (readQuestions s d hd.questionsCount true (mkAnswer hd.id) 12).2.1 12).1 := by
        injection h with h'
        injection h' with h1 h2
        exact h2.symm
      obtain ⟨t1, h1⟩ := readQuestions_bytes s d hd.questionsCount true (mkAnswer hd.id) 12
      obtain ⟨t2, h2⟩ := readQuestionsFAR_bytes s d hd.questionsCount
        (readQuestions s d hd.questionsCount true (mkAnswer hd.id) 12).1
        (readQuestions s d hd.questionsCount true (mkAnswer hd.id) 12).2.1 12
      have hb : st.bytes = encHeader ⟨hd.id, flagsResponse, 0, 0, 0, 0⟩ ++ (t1 ++ t2) := by
        rw [e, h2, h1]
        simp [mkAnswer]
      refine ⟨hd, rfl, ?_, ?_, ?_⟩
      · rw [e, readQuestionsFAR_queryId, readQuestions_queryId]
        rfl
      · rw [hb]
        simp [encHeader_length]
      · rw [hb]
        rw [show (12 : Nat) = (encHeader ⟨hd.id, flagsResponse, 0, 0, 0, 0⟩).length from
          (encHeader_length _).symm]
        exact List.take_left _ _
    · rw [if_neg hv] at h
      exact absurd h (by simp)

theorem parseHeader_enc (h : DnsRecordHeader) (rest : Bytes)
    (h1 : h.id < 65536) (h2 : h.flags < 65536) (h3 : h.questionsCount < 65536)
    (h4 : h.answersCount < 65536) (h5 : h.nameServersCount < 65536)
    (h6 : h.additionalRecordsCount < 65536) :
    parseHeader (encHeader h ++ rest) = some h := by
  have e0 : encHeader h ++ rest
      = [] ++ (encU16 h.id ++ (encU16 h.flags ++ (encU16 h.questionsCount ++
        (encU16 h.answersCount ++ (encU16 h.nameServersCount ++
          (encU16 h.additionalRecordsCount ++ rest)))))) := by
    simp [encHeader]
  have p0 : parseU16 (encHeader h ++ rest) 0 = some h.id := by
    rw [e0]
    exact parseU16_append [] _ h.id h1
  have p1 : parseU16 (encHeader h ++ rest) 2 = some h.flags := by
    have e : encHeader h ++ rest
        = encU16 h.id ++ (encU16 h.flags ++ (encU16 h.questionsCount ++
          (encU16 h.answersCount ++ (encU16 h.nameServersCount ++
            (encU16 h.additionalRecordsCount ++ rest))))) := by
      simp [encHeader]
    rw [e]
    exact parseU16_append (encU16 h.id) _ h.flags h2
  have p2 : parseU16 (encHeader h ++ rest) 4 = some h.questionsCount := by
    have e : encHeader h ++ rest
        = (encU16 h.id ++ encU16 h.flags) ++ (encU16 h.questionsCount ++
          (encU16 h.answersCount ++ (encU16 h.nameServersCount ++
            (encU16 h.additionalRecordsCount ++ rest)))) := by
      simp [encHeader]
    rw [e]
    exact parseU16_append (encU16 h.id ++ encU16 h.flags) _ h.questionsCount h3
  have p3 : parseU16 (encHeader h ++ rest) 6 = some h.answersCount := by
    have e : encHeader h ++ rest
        = (encU16 h.id ++ encU16 h.flags ++ encU16 h.questionsCount) ++
          (encU16 h.answersCount ++ (encU16 h.nameServersCount ++
            (encU16 h.additionalRecordsCount ++ rest))) := by
      simp [encHeader]
    rw [e]
    exact parseU16_append (encU16 h.id ++ encU16 h.flags ++ encU16 h.questionsCount)
      _ h.answersCount h4
  have p4 : parseU16 (encHeader h ++ rest) 8 = some h.nameServersCount := by
    have e : encHeader h ++ rest
        = (encU16 h.id ++ encU16 h.flags ++ encU16 h.questionsCount ++
            encU16 h.answersCount) ++ (encU16 h.nameServersCount ++
          (encU16 h.additionalRecordsCount ++ rest)) := by
      simp [encHeader]
    rw [e]
    exact parseU16_append (encU16 h.id ++ encU16 h.flags ++
      encU16 h.questionsCount ++ encU16 h.answersCount) _ h.nameServersCount h5
  have p5 : parseU16 (encHeader h ++ rest) 10 = some h.additionalRecordsCount := by
    have e : encHeader h ++ rest
        = (encU16 h.id ++ encU16 h.flags ++ encU16 h.questionsCount ++
            encU16 h.answersCount ++ encU16 h.nameServersCount) ++
          (encU16 h.additionalRecordsCount ++ rest) := by
      simp [encHeader]
    rw [e]
    exact parseU16_append (encU16 h.id ++ encU16 h.flags ++
      encU16 h.questionsCount ++ encU16 h.answersCount ++
      encU16 h.nameServersCount) _ h.additionalRecordsCount h6
  unfold parseHeader
  rw [p0, p1, p2, p3, p4, p5]

theorem parseQuestion_of_name (d : Bytes) (pos : Nat) (labels : Name)
    (p1 : Nat) (h : parseName d pos = some (labels, p1)) :
    parseQuestion d pos =
      (match parseU16 d p1, parseU16 d (p1 + 2) with
       | some t, some c => some (labels, ⟨t, c⟩, p1 + 4)
       | _, _ => none) := by
  unfold parseQuestion
  rw [h]

theorem parseQuestion_append (name : Name) (t c : Nat) (pre rest : Bytes)
    (hlab : ∀ l ∈ name, 0 < l.length ∧ l.length ≤ 63)
    (ht : t < 65536) (hc : c < 65536) :
    parseQuestion (pre ++ (encName name ++ (encU16 t ++ (encU16 c ++ rest))))
        pre.length
      = some (name, ⟨t, c⟩, pre.length + (encName name).length + 4) := by
  have pn := parseName_encName name pre (encU16 t ++ (encU16 c ++ rest)) hlab
  have pt : parseU16 (pre ++ (encName name ++ (encU16 t ++ (encU16 c ++ rest))))
      (pre.length + (encName name).length) = some t := by
    have e : pre ++ (encName name ++ (encU16 t ++ (encU16 c ++ rest)))
        = (pre ++ encName name) ++ (encU16 t ++ (encU16 c ++ rest)) := by
      simp
    rw [e]
    have h := parseU16_append (pre ++ encName name) (encU16 c ++ rest) t ht
    simpa using h
  have pc : parseU16 (pre ++ (encName name ++ (encU16 t ++ (encU16 c ++ rest))))
      (pre.length + (encName name).length + 2) = some c := by
    have e : pre ++ (encName name ++ (encU16 t ++ (encU16 c ++ rest)))
        = ((pre ++ encName name) ++ encU16 t) ++ (encU16 c ++ rest) := by
      simp
    rw [e]
    have h := parseU16_append ((pre ++ encName name) ++ encU16 t) rest c hc
    simpa [encU16] using h
  rw [parseQuestion_of_name _ _ name _ pn, pt, pc]

/-- A single-question query datagram: header with the given id, flags 0,
one question, zero resource-record counts, then the encoded question name
and its footer with the Internet class. -/
def query1 (i : Nat) (name : Name) (t : Nat) : Bytes :=
  encHeader ⟨i, 0, 1, 0, 0, 0⟩ ++
    (encName name ++ (encU16 t ++ (encU16 dnsClassIn ++ [])))

theorem parseHeader_query1 (i : Nat) (name : Name) (t : Nat) (hi : i < 65536) :
    parseHeader (query1 i name t) = some ⟨i, 0, 1, 0, 0, 0⟩ := by
  unfold query1
  exact parseHeader_enc ⟨i, 0, 1, 0, 0, 0⟩ _ hi
    (show (0 : Nat) < 65536 by norm_num) (show (1 : Nat) < 65536 by norm_num)
    (show (0 : Nat) < 65536 by norm_num) (show (0 : Nat) < 65536 by norm_num)
    (show (0 : Nat) < 65536 by norm_num)

theorem parseQuestion_query1 (i : Nat) (name : Name) (t : Nat)
    (hlab : ∀ l ∈ name, 0 < l.length ∧ l.length ≤ 63) (ht : t < 65536) :
    parseQuestion (query1 i name t) 12
      = some (name, ⟨t, dnsClassIn⟩, 12 + (encName name).length + 4) := by
  unfold query1
  have e : (12 : Nat) = (encHeader ⟨i, 0, 1, 0, 0, 0⟩).length :=
    (encHeader_length _).symm
  rw [e]
  exact parseQuestion_append name t dnsClassIn _ [] hlab ht (by norm_num [dnsClassIn])

theorem readQuestions_one (s : BonjourServer) (d : Bytes) (v : Bool)
    (st : Answer) (pos : Nat) :
    readQuestions s d 1 v st pos
      = if v then readQuestion s d st pos else (v, st, pos) := by
  cases v <;> rfl

theorem readQuestionsFAR_one (s : BonjourServer) (d : Bytes) (v : Bool)
    (st : Answer) (pos : Nat) :
    readQuestionsForAdditionalRecords s d 1 v st pos
      = if v then readQuestionForAdditionalRecords s d st pos else (st, pos) := by
  cases v <;> rfl

theorem isValidQuestion_some_eq (hd : DnsRecordHeader) :
    isValidQuestion (some hd) =
      (if hd.flags &&& flagsOpcodeMask ≠ flagsOpcodeQuery then false
       else if hd.flags &&& flagsResponse ≠ flagsQuery then false
       else if hd.answersCount ≠ 0 then false
       else if hd.nameServersCount ≠ 0 then false
       else if hd.additionalRecordsCount ≠ 0 then false
       else true) := rfl

theorem dataReceived_no_answer (s : BonjourServer) (d : Bytes) (fromPort : Nat)
    (h : hasAnswer s d = false) :
    dataReceived s none d fromPort = (none, none) := by
  simp [dataReceived, h]

/-- A concrete responder configuration used as a test fixture: instance
"inst", service "svc", type "tcp", an IPv4 address, no IPv6 address. -/
def cfg0 : BonjourServer :=
  ⟨[105, 110, 115, 116], [115, 118, 99], [116, 99, 112], some [1, 2, 3, 4],
    none, 80, [[97]]⟩

/-- A concrete A-type query for inst.local. -/
def qA : Bytes := query1 7 [[105, 110, 115, 116], localLabel] dnsTypeA

/-- A concrete PTR-type query for the full instance name
inst.svc.tcp.local. -/
def qPtrFull : Bytes :=
  query1 7 [[105, 110, 115, 116], [115, 118, 99], [116, 99, 112], localLabel] dnsTypePtr

/-- A concrete PTR-type query for the service name svc.tcp.local. -/
def qPtrSvc : Bytes := query1 7 [[115, 118, 99], [116, 99, 112], localLabel] dnsTypePtr

/-- A concrete structurally malformed query: a valid header declaring one
question, followed by a truncated name (length byte 5, one content byte). -/
def qBad : Bytes := encHeader ⟨7, 0, 1, 0, 0, 0⟩ ++ [5, 65]

/-- The answer the dry pass computes for qA. -/
def aA : Answer := (createAnswer cfg0 qA).getD (mkAnswer 0)

/-- C1: a datagram whose DNS header fails to parse, or whose opcode is not
QUERY, or whose response bit is set, or with a nonzero answers,
name-servers or additional-records count, produces no reply: HasAnswer is
false, no send stream is requested, and the retained reader is released. -/
theorem c1_invalid_header_silently_dropped (s : BonjourServer) (d : Bytes)
    (fromPort : Nat)
    (h : parseHeader d = none ∨
      ∃ hd, parseHeader d = some hd ∧
        (hd.flags &&& flagsOpcodeMask ≠ flagsOpcodeQuery ∨
         hd.flags &&& flagsResponse ≠ flagsQuery ∨
         hd.answersCount ≠ 0 ∨ hd.nameServersCount ≠ 0 ∨
         hd.additionalRecordsCount ≠ 0)) :
    hasAnswer s d = false ∧ dataReceived s none d fromPort = (none, none) := by
  have hval : isValidQuestion (parseHeader d) = false := by
    rcases h with h | ⟨hd, hp, hbad⟩
    · rw [h]
      rfl
    · rw [hp, isValidQuestion_some_eq]
      split_ifs <;> first
        | rfl
        | (exfalso; tauto)
  have hcore : createAnswerCore s d = none := by
    cases hp : parseHeader d with
    | none => exact createAnswerCore_none s d hp
    | some hd =>
      rw [hp] at hval
      rw [createAnswerCore_eq s d hd hp]
      simp [hval]
  have hha : hasAnswer s d = false :=
    hasAnswer_of_none s d (createAnswer_of_core_none s d hcore)
  exact ⟨hha, dataReceived_no_answer s d fromPort hha⟩

theorem c1_witness :
    hasAnswer cfg0 [] = false ∧ dataReceived cfg0 none [] 5353 = (none, none) :=
  c1_invalid_header_silently_dropped cfg0 [] 5353 (Or.inl rfl)

/-- C3: when the dry-run pass computed answer `a`, the real pass over the
same reader produces exactly the Finish patch of that same accumulator:
the byte count requested by the dry run equals the real output's length,
the real output's header carries the dry run's answer and
additional-record counts, and the record bytes after the header are
identical between the passes. -/
theorem c3_pass_equivalence (s : BonjourServer) (d : Bytes) (a : Answer)
    (h : createAnswer s d = some a) :
    realOutput s d = some (finish a) ∧
    dryRunProcessed s d = (finish a).length ∧
    (finish a).take 12 = encHeader ⟨a.queryId, flagsResponse, 0,
      a.answersCount, a.nameServersCount, a.additionalRecordsCount⟩ ∧
    (finish a).drop 12 = a.bytes.drop 12 := by
  cases hc : createAnswerCore s d with
  | none => rw [createAnswer_of_core_none s d hc] at h; cases h
  | some p =>
    obtain ⟨v, st⟩ := p
    rw [createAnswer_of_core_some s d v st hc] at h
    cases v with
    | false => simp at h
    | true =>
      rw [if_pos rfl] at h
      injection h with h
      rw [h] at hc
      obtain ⟨hd, hp, hqid, hlen, htake⟩ := createAnswerCore_inv s d true a hc
      refine ⟨?_, ?_, ?_, ?_⟩
      · rw [realOutput_of_some s d true a hc, if_pos rfl]
      · rw [dryRunProcessed_of_some s d true a hc]
        unfold finish
        rw [List.length_append, encHeader_length, List.length_drop]
        omega
      · unfold finish
        rw [show (12 : Nat) = (encHeader ⟨a.queryId, flagsResponse, 0,
          a.answersCount, a.nameServersCount, a.additionalRecordsCount⟩).length from
          (encHeader_length _).symm]
        exact List.take_left _ _
      · unfold finish
        rw [show (12 : Nat) = (encHeader ⟨a.queryId, flagsResponse, 0,
          a.answersCount, a.nameServersCount, a.additionalRecordsCount⟩).length from
          (encHeader_length _).symm]
        exact List.drop_left _ _

theorem c3_witness :
    realOutput cfg0 qA = some (finish aA) ∧
    dryRunProcessed cfg0 qA = (finish aA).length ∧
    (finish aA).take 12 = encHeader ⟨aA.queryId, flagsResponse, 0,
      aA.answersCount, aA.nameServersCount, aA.additionalRecordsCount⟩ ∧
    (finish aA).drop 12 = aA.bytes.drop 12 :=
  c3_pass_equivalence cfg0 qA aA (by rfl)

/-- C4: a query whose question section is structurally broken — some
question among the declared count fails to decode or carries an
unsupported footer — yields a discarded answer and no reply, regardless
of how many valid questions preceded the failure. -/
theorem c4_malformed_question_aborts (s : BonjourServer) (d : Bytes)
    (hd : DnsRecordHeader) (fromPort : Nat) (hp : parseHeader d = some hd)
    (hbad : questionsOk d hd.questionsCount 12 = false) :
    createAnswer s d = none ∧ hasAnswer s d = false ∧
    dataReceived s none d fromPort = (none, none) := by
  have hca : createAnswer s d = none := by
    by_cases hv : isValidQuestion (some hd)
    · have hcore : createAnswerCore s d
          = some ((readQuestions s d hd.questionsCount true (mkAnswer hd.id) 12).1,
            (readQuestionsForAdditionalRecords s d hd.questionsCount
              (readQuestions s d hd.questionsCount true (mkAnswer hd.id) 12).1
              (readQuestions s d hd.questionsCount true (mkAnswer hd.id) 12).2.1 12).1) := by
        rw [createAnswerCore_eq s d hd hp, if_pos hv]
      rw [createAnswer_of_core_some s d _ _ hcore]
      rw [readQuestions_fst s d hd.questionsCount (mkAnswer hd.id) 12, hbad]
      rfl
    · have hcore : createAnswerCore s d = none := by
        rw [createAnswerCore_eq s d hd hp, if_neg hv]
      exact createAnswer_of_core_none s d hcore
  have hha : hasAnswer s d = false := hasAnswer_of_none s d hca
  exact ⟨hca, hha, dataReceived_no_answer s d fromPort hha⟩

theorem c4_witness :
    createAnswer cfg0 qBad = none ∧ hasAnswer cfg0 qBad = false ∧
    dataReceived cfg0 none qBad 5353 = (none, none) :=
  c4_malformed_question_aborts cfg0 qBad ⟨7, 0, 1, 0, 0, 0⟩ 5353
    (by rfl) (by rfl)

/-- C5: the hostname matcher accepts exactly when the decoded labels and
the candidate labels are equal as sequences — same length, same contents,
in order; a proper prefix on either side is rejected. -/
theorem c5_hostname_exact_match (parts components : List Label) :
    hostNameIs parts components = true ↔ parts = components :=
  hostNameIs_iff_eq parts components

/-- C9: a datagram arriving while a reader is retained is dropped with no
state change and no send-stream request; when the reply buffer is then
granted, the reply sent is the first query's reply, computed from the
retained reader, and the reader slot returns to Idle (none). -/
theorem c9_second_datagram_dropped (s : BonjourServer) (d1 d2 : Bytes)
    (fromPort : Nat) :
    dataReceived s (some d1) d2 fromPort = (some d1, none) ∧
    sendStreamAvailable s (some d1) = (none, realOutput s d1) := by
  constructor
  · unfold dataReceived
    by_cases hp : fromPort ≠ mdnsPort
    · rw [if_pos hp]
    · rw [if_neg hp, if_pos (by simp)]
  · rfl

/-- C10: every emitted SRV record — as answer or as additional record —
has the full instance name as owner, priority 0, weight 0, the configured
port, the short instance name (instance.local) as target, and rdlength
equal to 6 plus the encoded length of that target name. -/
theorem c10_srv_record_content (s : BonjourServer) (st : Answer) (t : Name) :
    (addSrvAnswer s st).bytes
        = st.bytes ++ (encName (fullInstanceName s) ++
          encPayload dnsTypeSrv dnsClassIn 60 ((encName (shortInstanceName s)).length + 6) ++
          encU16 0 ++ encU16 0 ++ encU16 s.port ++ encName (shortInstanceName s)) ∧
    (addSrvAdditional s st).bytes
        = st.bytes ++ (encName (fullInstanceName s) ++
          encPayload dnsTypeSrv dnsClassIn 60 ((encName (shortInstanceName s)).length + 6) ++
          encU16 0 ++ encU16 0 ++ encU16 s.port ++ encName (shortInstanceName s)) ∧
    (addSrvAnswer s st).records
        = st.records ++ [.srv (fullInstanceName s) 0 0 s.port (shortInstanceName s)] ∧
    (addSrvAdditional s st).records
        = st.records ++ [.srv (fullInstanceName s) 0 0 s.port (shortInstanceName s)] ∧
    streamedSize t = (encName t).length := by
  refine ⟨?_, ?_, rfl, rfl, streamedSize_eq_encName_length t⟩ <;>
    simp [addSrvAnswer, addSrvAdditional, addSrv, addRecord, encRec,
      streamedSize_eq_encName_length]

theorem isValidQuestion_query1_header (i : Nat) :
    isValidQuestion (some ⟨i, 0, 1, 0, 0, 0⟩) = true := by
  rw [isValidQuestion_some_eq]
  simp [flagsOpcodeMask, flagsOpcodeQuery, flagsResponse, flagsQuery]

theorem createAnswerCore_query1 (s : BonjourServer) (i t : Nat) (name : Name)
    (hi : i < 65536) :
    createAnswerCore s (query1 i name t)
      = some ((readQuestion s (query1 i name t) (mkAnswer i) 12).1,
          (readQuestionsForAdditionalRecords s (query1 i name t) 1
            (readQuestion s (query1 i name t) (mkAnswer i) 12).1
            (readQuestion s (query1 i name t) (mkAnswer i) 12).2.1 12).1) := by
  rw [createAnswerCore_eq s _ ⟨i, 0, 1, 0, 0, 0⟩ (parseHeader_query1 i name t hi)]
  rw [if_pos (isValidQuestion_query1_header i)]
  rw [show (⟨i, 0, 1, 0, 0, 0⟩ : DnsRecordHeader).questionsCount = 1 from rfl]
  rw [show (⟨i, 0, 1, 0, 0, 0⟩ : DnsRecordHeader).id = i from rfl]
  rw [readQuestions_one, if_pos (show true = true from rfl)]

theorem createAnswerCore_query1_of_steps (s : BonjourServer) (i t : Nat)
    (name : Name) (st1 st2 : Answer) (P : Nat) (hi : i < 65536)
    (hq : readQuestion s (query1 i name t) (mkAnswer i) 12 = (true, st1, P))
    (hfar : readQuestionForAdditionalRecords s (query1 i name t) st1 12 = (st2, P)) :
    createAnswerCore s (query1 i name t) = some (true, st2) := by
  rw [createAnswerCore_query1 s i t name hi, hq]
  simp [readQuestionsFAR_one, hfar]

theorem createAnswer_query1_of_steps (s : BonjourServer) (i t : Nat)
    (name : Name) (st1 st2 : Answer) (P : Nat) (hi : i < 65536)
    (hq : readQuestion s (query1 i name t) (mkAnswer i) 12 = (true, st1, P))
    (hfar : readQuestionForAdditionalRecords s (query1 i name t) st1 12 = (st2, P)) :
    createAnswer s (query1 i name t) = some st2 := by
  rw [createAnswer_of_core_some s _ true st2
    (createAnswerCore_query1_of_steps s i t name st1 st2 P hi hq hfar)]
  rfl

theorem shortInstanceName_labels (s : BonjourServer)
    (hinst : 0 < s.instanceName.length ∧ s.instanceName.length ≤ 63) :
    ∀ l ∈ shortInstanceName s, 0 < l.length ∧ l.length ≤ 63 := by
  intro l hl
  simp only [shortInstanceName, List.mem_cons, List.not_mem_nil, or_false] at hl
  rcases hl with rfl | rfl
  · exact hinst
  · exact ⟨by decide, by decide⟩

theorem serviceTypeName_labels (s : BonjourServer)
    (hsvc : 0 < s.serviceName.length ∧ s.serviceName.length ≤ 63)
    (htyp : 0 < s.type.length ∧ s.type.length ≤ 63) :
    ∀ l ∈ serviceTypeName s, 0 < l.length ∧ l.length ≤ 63 := by
  intro l hl
  simp only [serviceTypeName, List.mem_cons, List.not_mem_nil, or_false] at hl
  rcases hl with rfl | rfl | rfl
  · exact hsvc
  · exact htyp
  · exact ⟨by decide, by decide⟩

theorem isQueryForMe_a_short (s : BonjourServer) :
    isQueryForMe s (shortInstanceName s) ⟨dnsTypeA, dnsClassIn⟩ = true := by
  unfold isQueryForMe
  rw [if_pos ⟨rfl, hostNameIs_self [s.instanceName, localLabel]⟩]

theorem isQueryForMe_ptr_service (s : BonjourServer) :
    isQueryForMe s (serviceTypeName s) ⟨dnsTypePtr, dnsClassIn⟩ = true := by
  unfold isQueryForMe
  rw [if_neg (fun hc => absurd hc.1 (by decide)),
    if_neg (fun hc => absurd hc.1 (by decide)),
    if_neg (fun hc => absurd hc.1 (by decide)),
    if_neg (fun hc => absurd hc.1 (by decide)),
    if_pos ⟨rfl, hostNameIs_self [s.serviceName, s.type, localLabel]⟩]

theorem a_query_readQuestion (s : BonjourServer) (i : Nat)
    (hinst : 0 < s.instanceName.length ∧ s.instanceName.length ≤ 63) :
    readQuestion s (query1 i (shortInstanceName s) dnsTypeA) (mkAnswer i) 12
      = (true, addAAnswer s (mkAnswer i),
          12 + (encName (shortInstanceName s)).length + 4) := by
  have hq0 := parseQuestion_query1 i (shortInstanceName s) dnsTypeA
    (shortInstanceName_labels s hinst) (by decide)
  rw [readQuestion_some s _ (mkAnswer i) 12 _ _ _ hq0]
  rw [if_neg (show ¬ ¬ (isFooterValid ⟨dnsTypeA, dnsClassIn⟩ = true) by decide)]
  rw [if_pos (isQueryForMe_a_short s)]
  rw [if_pos (show (⟨dnsTypeA, dnsClassIn⟩ : Footer).type = dnsTypeA from rfl)]

theorem a_query_far (s : BonjourServer) (i : Nat)
    (hinst : 0 < s.instanceName.length ∧ s.instanceName.length ≤ 63) :
    readQuestionForAdditionalRecords s (query1 i (shortInstanceName s) dnsTypeA)
        (addAAnswer s (mkAnswer i)) 12
      = (addAAnswer s (mkAnswer i),
          12 + (encName (shortInstanceName s)).length + 4) := by
  have hq0 := parseQuestion_query1 i (shortInstanceName s) dnsTypeA
    (shortInstanceName_labels s hinst) (by decide)
  rw [readQuestionFAR_some s _ _ 12 _ _ _ hq0]
  rw [if_pos (isQueryForMe_a_short s)]
  rw [if_neg (show ¬ ((⟨dnsTypeA, dnsClassIn⟩ : Footer).type = dnsTypePtr) by decide)]
  rw [if_neg (show ¬ ((⟨dnsTypeA, dnsClassIn⟩ : Footer).type = dnsTypeSrv) by decide)]

/-- C6: a valid single-question query naming the configured short instance
name (instance.local) with type A yields exactly one A answer carrying the
configured IPv4 address when one is configured, and zero answers when no
IPv4 address is configured. -/
theorem c6_short_name_a_query (s : BonjourServer) (i : Nat) (hi : i < 65536)
    (hinst : 0 < s.instanceName.length ∧ s.instanceName.length ≤ 63) :
    ∃ a, createAnswer s (query1 i (shortInstanceName s) dnsTypeA) = some a ∧
      a.answersCount = (match s.ipv4Address with | some _ => 1 | none => 0) ∧
      a.records = (match s.ipv4Address with
        | some ad => [DnsRec.a (shortInstanceName s) ad]
        | none => []) := by
  have hca := createAnswer_query1_of_steps s i dnsTypeA (shortInstanceName s)
    (addAAnswer s (mkAnswer i)) (addAAnswer s (mkAnswer i)) _ hi
    (a_query_readQuestion s i hinst) (a_query_far s i hinst)
  refine ⟨addAAnswer s (mkAnswer i), hca, ?_, ?_⟩
  · cases h4 : s.ipv4Address with
    | none => simp [addAAnswer, h4, mkAnswer]
    | some ad => simp [addAAnswer, addA, addRecord, mkAnswer, h4]
  · cases h4 : s.ipv4Address with
    | none => simp [addAAnswer, h4, mkAnswer]
    | some ad => simp [addAAnswer, addA, addRecord, mkAnswer, h4]

theorem c6_witness :
    ∃ a, createAnswer cfg0 (query1 7 (shortInstanceName cfg0) dnsTypeA) = some a ∧
      a.answersCount = (match cfg0.ipv4Address with | some _ => 1 | none => 0) ∧
      a.records = (match cfg0.ipv4Address with
        | some ad => [DnsRec.a (shortInstanceName cfg0) ad]
        | none => []) :=
  c6_short_name_a_query cfg0 7 (by decide) (by decide)

/-- C2 counterexample: a valid query with one question naming the full
service instance (inst.svc.tcp.local) with type PTR yields an answer count
of zero (PTR questions match the service name, not the full instance
name), so no response with ancount 1 is emitted — the datagram is dropped
with no reply. -/
theorem c2_counterexample :
    hasAnswer cfg0 qPtrFull = false ∧
    (createAnswer cfg0 qPtrFull).map Answer.answersCount = some 0 ∧
    dataReceived cfg0 none qPtrFull 5353 = (none, none) := by
  refine ⟨by decide, by decide, ?_⟩
  exact dataReceived_no_answer cfg0 qPtrFull 5353 (by decide)

theorem ptr_query_readQuestion (s : BonjourServer) (i : Nat)
    (hsvc : 0 < s.serviceName.length ∧ s.serviceName.length ≤ 63)
    (htyp : 0 < s.type.length ∧ s.type.length ≤ 63) :
    readQuestion s (query1 i (serviceTypeName s) dnsTypePtr) (mkAnswer i) 12
      = (true, addPtrAnswer s (mkAnswer i),
          12 + (encName (serviceTypeName s)).length + 4) := by
  have hq0 := parseQuestion_query1 i (serviceTypeName s) dnsTypePtr
    (serviceTypeName_labels s hsvc htyp) (by decide)
  rw [readQuestion_some s _ (mkAnswer i) 12 _ _ _ hq0]
  rw [if_neg (show ¬ ¬ (isFooterValid ⟨dnsTypePtr, dnsClassIn⟩ = true) by decide)]
  rw [if_pos (isQueryForMe_ptr_service s)]
  rw [if_neg (show ¬ ((⟨dnsTypePtr, dnsClassIn⟩ : Footer).type = dnsTypeA) by decide)]
  rw [if_neg (show ¬ ((⟨dnsTypePtr, dnsClassIn⟩ : Footer).type = dnsTypeAAAA) by decide)]
  rw [if_pos (show (⟨dnsTypePtr, dnsClassIn⟩ : Footer).type = dnsTypePtr from rfl)]

theorem ptr_query_far (s : BonjourServer) (i : Nat)
    (hsvc : 0 < s.serviceName.length ∧ s.serviceName.length ≤ 63)
    (htyp : 0 < s.type.length ∧ s.type.length ≤ 63) :
    readQuestionForAdditionalRecords s (query1 i (serviceTypeName s) dnsTypePtr)
        (addPtrAnswer s (mkAnswer i)) 12
      = (addAaaaAdditional s (addAAdditional s (addSrvAdditional s
          (addTxtAdditional s (addPtrAnswer s (mkAnswer i))))),
          12 + (encName (serviceTypeName s)).length + 4) := by
  have hq0 := parseQuestion_query1 i (serviceTypeName s) dnsTypePtr
    (serviceTypeName_labels s hsvc htyp) (by decide)
  rw [readQuestionFAR_some s _ _ 12 _ _ _ hq0]
  rw [if_pos (isQueryForMe_ptr_service s)]
  rw [if_pos (show (⟨dnsTypePtr, dnsClassIn⟩ : Footer).type = dnsTypePtr from rfl)]

/-- C2 amended: for a valid single-question query naming the service name
(serviceName.type.local) with type PTR, the answer count is 1 (the PTR
answer) and the additional-records count is 2 (TXT and SRV, always) plus
one for A when an IPv4 address is configured plus one for AAAA when an
IPv6 address is configured; the answer record is the PTR record pointing
at the full instance name. -/
theorem c2_ptr_service_name_counts (s : BonjourServer) (i : Nat)
    (hi : i < 65536)
    (hsvc : 0 < s.serviceName.length ∧ s.serviceName.length ≤ 63)
    (htyp : 0 < s.type.length ∧ s.type.length ≤ 63) :
    ∃ a, createAnswer s (query1 i (serviceTypeName s) dnsTypePtr) = some a ∧
      a.answersCount = 1 ∧
      a.additionalRecordsCount
        = 2 + (match s.ipv4Address with | some _ => 1 | none => 0)
            + (match s.ipv6Address with | some _ => 1 | none => 0) ∧
      a.records.take 1 = [DnsRec.ptr (serviceTypeName s) (fullInstanceName s)] := by
  have hca := createAnswer_query1_of_steps s i dnsTypePtr (serviceTypeName s)
    (addPtrAnswer s (mkAnswer i))
    (addAaaaAdditional s (addAAdditional s (addSrvAdditional s
      (addTxtAdditional s (addPtrAnswer s (mkAnswer i)))))) _ hi
    (ptr_query_readQuestion s i hsvc htyp) (ptr_query_far s i hsvc htyp)
  refine ⟨_, hca, ?_, ?_, ?_⟩ <;>
    cases h4 : s.ipv4Address <;> cases h6 : s.ipv6Address <;>
      simp [addAaaaAdditional, addAAdditional, addSrvAdditional, addTxtAdditional,
        addPtrAnswer, addPtr, addSrv, addTxt, addA, addAaaa, addRecord, mkAnswer,
        h4, h6]

theorem c2_witness :
    ∃ a, createAnswer cfg0 (query1 7 (serviceTypeName cfg0) dnsTypePtr) = some a ∧
      a.answersCount = 1 ∧
      a.additionalRecordsCount
        = 2 + (match cfg0.ipv4Address with | some _ => 1 | none => 0)
            + (match cfg0.ipv6Address with | some _ => 1 | none => 0) ∧
      a.records.take 1 = [DnsRec.ptr (serviceTypeName cfg0) (fullInstanceName cfg0)] :=
  c2_ptr_service_name_counts cfg0 7 (by decide) (by decide) (by decide)

/-- C8 counterexample: in the emitted response to the concrete A query,
the first record's name field (the two bytes right after the 12-byte
header) is [4, 105] — the length-prefixed first label "inst" — and not the
compression pointer [0xC0, 12]; the rnameCompression constant is never
written. -/
theorem c8_counterexample :
    (((realOutput cfg0 qA).getD []).drop 12).take 2 = [4, 105] ∧
    (((realOutput cfg0 qA).getD []).drop 12).take 2 ≠ [192, 12] := by
  refine ⟨by decide, by decide⟩

/-- C8 amended: every emitted record's name field is the full
length-prefixed label encoding of its owner name, not a compression
pointer: for the short-instance A query the whole response is the patched
header followed by the complete encoded owner name, the payload footer,
and the address bytes. -/
theorem c8_full_name_in_answer (s : BonjourServer) (i : Nat) (ad : Bytes)
    (hi : i < 65536)
    (hinst : 0 < s.instanceName.length ∧ s.instanceName.length ≤ 63)
    (h4 : s.ipv4Address = some ad) :
    realOutput s (query1 i (shortInstanceName s) dnsTypeA)
      = some (encHeader ⟨i, flagsResponse, 0, 1, 0, 0⟩ ++
          (encName (shortInstanceName s) ++ encPayload dnsTypeA dnsClassIn 60 4 ++ ad)) := by
  have hcore := createAnswerCore_query1_of_steps s i dnsTypeA (shortInstanceName s)
    (addAAnswer s (mkAnswer i)) (addAAnswer s (mkAnswer i)) _ hi
    (a_query_readQuestion s i hinst) (a_query_far s i hinst)
  rw [realOutput_of_some s _ true _ hcore, if_pos rfl]
  have hst : addAAnswer s (mkAnswer i) = ⟨i,
      encHeader ⟨i, flagsResponse, 0, 0, 0, 0⟩ ++
        encRec (.a (shortInstanceName s) ad), 1, 0, 0,
      [.a (shortInstanceName s) ad]⟩ := by
    simp [addAAnswer, addA, addRecord, mkAnswer, h4]
  rw [hst]
  unfold finish
  simp only []
  rw [show (12 : Nat) = (encHeader ⟨i, flagsResponse, 0, 0, 0, 0⟩).length from
    (encHeader_length _).symm]
  rw [List.drop_left]
  rfl

theorem c8_witness :
    realOutput cfg0 (query1 7 (shortInstanceName cfg0) dnsTypeA)
      = some (encHeader ⟨7, flagsResponse, 0, 1, 0, 0⟩ ++
          (encName (shortInstanceName cfg0) ++
            encPayload dnsTypeA dnsClassIn 60 4 ++ [1, 2, 3, 4])) :=
  c8_full_name_in_answer cfg0 7 [1, 2, 3, 4] (by decide) (by decide) (by decide)

/-- C7: the first bytes written by any answer-building pass are the
provisional 12-byte header — the query id copied from the query, the
response flag set, all four counts zero — and Finish overwrites exactly
that header region in place with the true counts: the output length is
unchanged, the bytes after the header are unchanged, and every record
writing operation only appends, so the header patch is the only
retroactive overwrite. -/
theorem c7_provisional_header_and_patch (s : BonjourServer) (d : Bytes)
    (hd : DnsRecordHeader) (a st : Answer)
    (hp : parseHeader d = some hd) (hca : createAnswer s d = some a)
    (h12 : 12 ≤ st.bytes.length) :
    a.queryId = hd.id ∧
    a.bytes.take 12 = encHeader ⟨hd.id, flagsResponse, 0, 0, 0, 0⟩ ∧
    (finish st).length = st.bytes.length ∧
    (finish st).take 12 = encHeader ⟨st.queryId, flagsResponse, 0,
      st.answersCount, st.nameServersCount, st.additionalRecordsCount⟩ ∧
    (finish st).drop 12 = st.bytes.drop 12 ∧
    (∃ t, (addAAnswer s st).bytes = st.bytes ++ t) ∧
    (∃ t, (addAaaaAnswer s st).bytes = st.bytes ++ t) ∧
    (∃ t, (addPtrAnswer s st).bytes = st.bytes ++ t) ∧
    (∃ t, (addSrvAnswer s st).bytes = st.bytes ++ t) ∧
    (∃ t, (addTxtAnswer s st).bytes = st.bytes ++ t) ∧
    (∃ t, (addAAdditional s st).bytes = st.bytes ++ t) ∧
    (∃ t, (addAaaaAdditional s st).bytes = st.bytes ++ t) ∧
    (∃ t, (addSrvAdditional s st).bytes = st.bytes ++ t) ∧
    (∃ t, (addTxtAdditional s st).bytes = st.bytes ++ t) := by
  have hqid : a.queryId = hd.id ∧
      a.bytes.take 12 = encHeader ⟨hd.id, flagsResponse, 0, 0, 0, 0⟩ := by
    cases hc : createAnswerCore s d with
    | none => rw [createAnswer_of_core_none s d hc] at hca; cases hca
    | some p =>
      obtain ⟨v, st'⟩ := p
      rw [createAnswer_of_core_some s d v st' hc] at hca
      cases v with
      | false => simp at hca
      | true =>
        rw [if_pos rfl] at hca
        injection hca with hca
        rw [hca] at hc
        obtain ⟨hd', hp', hq, _, ht⟩ := createAnswerCore_inv s d true a hc
        rw [hp] at hp'
        injection hp' with hp'
        rw [← hp'] at hq ht
        exact ⟨hq, ht⟩
  refine ⟨hqid.1, hqid.2, ?_, ?_, ?_,
    addAAnswer_bytes s st, addAaaaAnswer_bytes s st, addPtrAnswer_bytes s st,
    addSrvAnswer_bytes s st, addTxtAnswer_bytes s st, addAAdditional_bytes s st,
    addAaaaAdditional_bytes s st, addSrvAdditional_bytes s st,
    addTxtAdditional_bytes s st⟩
  · unfold finish
    rw [List.length_append, encHeader_length, List.length_drop]
    omega
  · unfold finish
    rw [show (12 : Nat) = (encHeader ⟨st.queryId, flagsResponse, 0,
      st.answersCount, st.nameServersCount, st.additionalRecordsCount⟩).length from
      (encHeader_length _).symm]
    exact List.take_left _ _
  · unfold finish
    rw [show (12 : Nat) = (encHeader ⟨st.queryId, flagsResponse, 0,
      st.answersCount, st.nameServersCount, st.additionalRecordsCount⟩).length from
      (encHeader_length _).symm]
    exact List.drop_left _ _

theorem c7_witness :
    aA.queryId = (7 : Nat) ∧
    aA.bytes.take 12 = encHeader ⟨7, flagsResponse, 0, 0, 0, 0⟩ ∧
    (finish (mkAnswer 7)).length = (mkAnswer 7).bytes.length ∧
    (finish (mkAnswer 7)).take 12 = encHeader ⟨(mkAnswer 7).queryId,
      flagsResponse, 0, (mkAnswer 7).answersCount,
      (mkAnswer 7).nameServersCount, (mkAnswer 7).additionalRecordsCount⟩ ∧
    (finish (mkAnswer 7)).drop 12 = (mkAnswer 7).bytes.drop 12 ∧
    (∃ t, (addAAnswer cfg0 (mkAnswer 7)).bytes = (mkAnswer 7).bytes ++ t) ∧
    (∃ t, (addAaaaAnswer cfg0 (mkAnswer 7)).bytes = (mkAnswer 7).bytes ++ t) ∧
    (∃ t, (addPtrAnswer cfg0 (mkAnswer 7)).bytes = (mkAnswer 7).bytes ++ t) ∧
    (∃ t, (addSrvAnswer cfg0 (mkAnswer 7)).bytes = (mkAnswer 7).bytes ++ t) ∧
    (∃ t, (addTxtAnswer cfg0 (mkAnswer 7)).bytes = (mkAnswer 7).bytes ++ t) ∧
    (∃ t, (addAAdditional cfg0 (mkAnswer 7)).bytes = (mkAnswer 7).bytes ++ t) ∧
    (∃ t, (addAaaaAdditional cfg0 (mkAnswer 7)).bytes = (mkAnswer 7).bytes ++ t) ∧
    (∃ t, (addSrvAdditional cfg0 (mkAnswer 7)).bytes = (mkAnswer 7).bytes ++ t) ∧
    (∃ t, (addTxtAdditional cfg0 (mkAnswer 7)).bytes = (mkAnswer 7).bytes ++ t) :=
  c7_provisional_header_and_patch cfg0 qA ⟨7, 0, 1, 0, 0, 0⟩ aA (mkAnswer 7)
    (by decide) (by rfl) (by decide)

end Bonjour
